import Mathlib

/-!
Shallow embedding of the service layer of rmw_gurumdds_cpp
(src/rmw_gurumdds_cpp/src/rmw_service.cpp).

Machine integers are represented by their two's-complement bit patterns as
naturals: an int64 value is a Nat below 2 ^ 64, an int32 or uint32 value is a
Nat below 2 ^ 32.  The 16-byte caller identity (client GUID) is a list of
byte values.  Calls into the DDS transport and the external collaborators
(type support, graph cache, QoS helpers) are modelled by an environment
record that fixes the outcome of each fallible external call; the embedded
functions compute the resulting control flow, outputs and resource effects
exactly as the C++ source does.
-/

/-- Return code of an RMW-layer call (the subset produced by the service code). -/
inductive RmwRet where
  | ok
  | error
  | invalidArgument
  deriving DecidableEq, Repr

/-- Bit pattern of the int64 recombination performed by rmw_take_request on the
basic variant: request_id.sequence_number = ((int64)sn_high) << 32 | sn_low.
Since the two operands occupy disjoint bit ranges, the bitwise or is addition
of the shifted high half (an int32 pattern) and the low half (a uint32). -/
def combine_sn (sn_high sn_low : Nat) : Nat :=
  sn_high % 2 ^ 32 * 2 ^ 32 + sn_low % 2 ^ 32

/-- Modelled from the spec: the high half of the 32+32-bit split form of a
64-bit sequence number used by the basic variant and by the transport-native
sequence representation (the serializer that performs the split is declared in
type_support_service.hpp and is not part of the analyzed source). -/
def split_sn_high (sn : Nat) : Nat := sn / 2 ^ 32 % 2 ^ 32

/-- Modelled from the spec: the low half of the 32+32-bit split form of a
64-bit sequence number. -/
def split_sn_low (sn : Nat) : Nat := sn % 2 ^ 32

/-- Modelled from the spec: dds_guid_to_ros_guid converts the transport-native
endpoint identity to the 16-byte caller-identity token; the conversion is a
byte-for-byte copy, inverse to ros_guid_to_dds_guid. -/
def dds_guid_to_ros_guid (g : List Nat) : List Nat := g

/-- Modelled from the spec: ros_guid_to_dds_guid converts the 16-byte
caller-identity token to the transport-native endpoint identity. -/
def ros_guid_to_dds_guid (g : List Nat) : List Nat := g

/-- Modelled from the spec: dds_sn_to_ros_sn combines the transport-native
split sequence number (32-bit high and low halves) into the protocol-native
64-bit sequence number. -/
def dds_sn_to_ros_sn (sn_high sn_low : Nat) : Nat := combine_sn sn_high sn_low

/-- Modelled from the spec: ros_sn_to_dds_sn splits the protocol-native 64-bit
sequence number into the transport-native high and low halves. -/
def ros_sn_to_dds_sn (sn : Nat) : Nat × Nat := (split_sn_high sn, split_sn_low sn)

/-- Wire form of one basic-variant sample: the serialized body is extended with
the hidden correlation fields (split sequence number and client GUID). -/
structure BasicWireSample where
  sn_high : Nat
  sn_low : Nat
  client_guid : List Nat
  body : List Nat
  deriving DecidableEq, Repr

/-- Wire form of one enhanced-variant sample: the correlation metadata travels
out of band in the extended sample info (src_guid and the split seq), the body
is only the serialized user payload. -/
structure EnhancedWireSample where
  src_guid : List Nat
  seq_high : Nat
  seq_low : Nat
  body : List Nat
  deriving DecidableEq, Repr

/-- Modelled from the spec: deserialize_request_basic extracts the split
sequence number, the client GUID and the deserialized payload from a
basic-variant sample body (the deserializer is not part of the analyzed
source).  The result is (payload, sn_high, sn_low, client_guid). -/
def deserialize_request_basic (w : BasicWireSample) : List Nat × Nat × Nat × List Nat :=
  (w.body, w.sn_high, w.sn_low, w.client_guid)

/-- Modelled from the spec: deserialize_request_enhanced deserializes the
payload from an enhanced-variant body; the body holds no correlation fields. -/
def deserialize_request_enhanced (body : List Nat) : List Nat := body

/-- Modelled from the spec: serialize_response_basic re-injects the split
sequence number and client GUID into the serialized response body. -/
def serialize_response_basic (payload : List Nat) (sn : Nat) (guid : List Nat) :
    BasicWireSample :=
  ⟨split_sn_high sn, split_sn_low sn, guid, payload⟩

/-- Modelled from the spec: serialize_response_enhanced serializes the payload
without touching it; the correlation metadata is written to the outgoing
extended sample info instead. -/
def serialize_response_enhanced (payload : List Nat) : List Nat := payload

/-- Modelled from the spec: the basic-variant encoding of a request embeds the
caller identity and the split sequence number inside the serialized payload. -/
def encode_request_basic (guid : List Nat) (sn : Nat) (body : List Nat) :
    BasicWireSample :=
  ⟨split_sn_high sn, split_sn_low sn, guid, body⟩

/-- Decoding of a basic-variant request as performed on the take side:
deserialize_request_basic extracts the hidden fields and rmw_take_request
recombines the split sequence number with combine_sn.
The result is (caller identity, sequence number, payload). -/
def decode_request_basic (w : BasicWireSample) : List Nat × Nat × List Nat :=
  (w.client_guid, combine_sn w.sn_high w.sn_low, w.body)

/-- Modelled from the spec: the enhanced-variant encoding of a request writes
the caller identity and sequence number as out-of-band sample metadata via the
identity codec, leaving the body untouched. -/
def encode_request_enhanced (guid : List Nat) (sn : Nat) (body : List Nat) :
    EnhancedWireSample :=
  ⟨ros_guid_to_dds_guid guid, (ros_sn_to_dds_sn sn).1, (ros_sn_to_dds_sn sn).2, body⟩

/-- Decoding of an enhanced-variant request as performed on the take side:
the metadata fields are read through the identity codec, the body is
deserialized unchanged.  The result is (caller identity, sequence number,
payload). -/
def decode_request_enhanced (w : EnhancedWireSample) : List Nat × Nat × List Nat :=
  (dds_guid_to_ros_guid w.src_guid, dds_sn_to_ros_sn w.seq_high w.seq_low, w.body)

/-- The rmw_service_info_t request header filled in by rmw_take_request:
timestamps in nanoseconds, the echoed sequence number (int64 bit pattern) and
the 16-byte writer GUID of the requesting client. -/
structure ServiceInfoHeader where
  source_timestamp : Int
  received_timestamp : Int
  sequence_number : Nat
  writer_guid : List Nat
  deriving DecidableEq, Repr

/-- The fields of ServiceInfo consulted by rmw_take_request and
rmw_send_response: nullability of the stored handles and the context-wide
service_mapping_basic flag (service_info->ctx->service_mapping_basic). -/
structure ServiceData where
  request_reader_null : Bool
  response_writer_null : Bool
  typesupport_null : Bool
  service_mapping_basic : Bool
  deriving DecidableEq, Repr

/-- Observations of one sample delivered by a raw take: the sample info flags
and timestamps, the raw bytes (given in both interpretations: as a
basic-variant wire sample and as an enhanced-variant body), the extended
sample info metadata, and whether the deserializer accepts the bytes. -/
structure SampleEnv where
  valid_data : Bool
  sample_null : Bool
  wire : BasicWireSample
  body : List Nat
  deserialize_ok : Bool
  source_sec : Int
  source_nanosec : Nat
  reception_sec : Int
  reception_nanosec : Nat
  src_guid : List Nat
  seq_high : Nat
  seq_low : Nat
  deriving DecidableEq, Repr

/-- Outcome of dds_DataReader_raw_take (or raw_take_w_sampleinfoex). -/
inductive RawTakeOutcome where
  | noData
  | takeError
  | sample (s : SampleEnv)
  deriving DecidableEq, Repr

/-- Environment of one rmw_take_request call: outcomes of the three scratch
sequence allocations and of the raw take. -/
structure TakeEnv where
  alloc_data_values_ok : Bool
  alloc_sample_infos_ok : Bool
  alloc_sample_sizes_ok : Bool
  raw_take : RawTakeOutcome
  deriving DecidableEq, Repr

/-- Arguments of one rmw_take_request call.  service models the service
pointer (none: null pointer; some none: non-null handle whose data field is
null; some (some d): live handle).  The three null flags model null output
pointers.  taken_init, header_init and request_init are the contents of the
caller-owned output locations before the call. -/
structure TakeArgs where
  service : Option (Option ServiceData)
  request_header_null : Bool
  ros_request_null : Bool
  taken_null : Bool
  taken_init : Bool
  header_init : ServiceInfoHeader
  request_init : List Nat
  deriving DecidableEq, Repr

/-- Result of one rmw_take_request call: the return code, the final contents
of the caller-owned outputs, and the effect record (whether a raw take was
issued, whether the loaned buffers were returned, and with which value of the
service_mapping_basic flag the wire-variant branch was entered, if it was). -/
structure TakeOut where
  ret : RmwRet
  taken : Bool
  header : ServiceInfoHeader
  request : List Nat
  raw_take_called : Bool
  loan_returned : Bool
  used_basic : Option Bool
  deriving DecidableEq, Repr

/-- The basic-variant block of rmw_take_request (the branch taken when
service_mapping_basic holds): one raw take; no-data is a success with the
outputs untouched; a take error is RMW_RET_ERROR; an invalid sample skips the
decode; a valid sample is decoded by deserialize_request_basic, the split
sequence number recombined and the timestamps filled in; the loan is returned
on every exit, and both the valid and the invalid sample paths fall through to
*taken = true. -/
def rmw_take_request_basic (a : TakeArgs) (rt : RawTakeOutcome) : TakeOut :=
  match rt with
  | .noData =>
    ⟨.ok, false, a.header_init, a.request_init, true, true, some true⟩
  | .takeError =>
    ⟨.error, false, a.header_init, a.request_init, true, true, some true⟩
  | .sample s =>
    if s.valid_data then
      if s.sample_null then
        ⟨.error, false, a.header_init, a.request_init, true, true, some true⟩
      else if !s.deserialize_ok then
        ⟨.error, false, a.header_init, a.request_init, true, true, some true⟩
      else
        let dec := deserialize_request_basic s.wire
        ⟨.ok, true,
          ⟨s.source_sec * 1000000000 + (s.source_nanosec : Int),
           s.reception_sec * 1000000000 + (s.reception_nanosec : Int),
           combine_sn dec.2.1 dec.2.2.1,
           dec.2.2.2⟩,
          dec.1, true, true, some true⟩
    else
      ⟨.ok, true, a.header_init, a.request_init, true, true, some true⟩

/-- The enhanced-variant block of rmw_take_request (the branch taken when
service_mapping_basic is false): like the basic block, except that the
envelope is read from the extended sample info through the identity codec and
the body is deserialized unchanged. -/
def rmw_take_request_enhanced (a : TakeArgs) (rt : RawTakeOutcome) : TakeOut :=
  match rt with
  | .noData =>
    ⟨.ok, false, a.header_init, a.request_init, true, true, some false⟩
  | .takeError =>
    ⟨.error, false, a.header_init, a.request_init, true, true, some false⟩
  | .sample s =>
    if s.valid_data then
      if s.sample_null then
        ⟨.error, false, a.header_init, a.request_init, true, true, some false⟩
      else if !s.deserialize_ok then
        ⟨.error, false, a.header_init, a.request_init, true, true, some false⟩
      else
        ⟨.ok, true,
          ⟨s.source_sec * 1000000000 + (s.source_nanosec : Int),
           s.reception_sec * 1000000000 + (s.reception_nanosec : Int),
           dds_sn_to_ros_sn s.seq_high s.seq_low,
           dds_guid_to_ros_guid s.src_guid⟩,
          deserialize_request_enhanced s.body, true, true, some false⟩
    else
      ⟨.ok, true, a.header_init, a.request_init, true, true, some false⟩

/-- Embedding of rmw_take_request.  Control flow follows the source: argument
null checks (returning RMW_RET_INVALID_ARGUMENT before any output is written),
then *taken = false, then the null checks on service data, reader and
typesupport, then the three scratch sequence allocations, then the branch on
service_mapping_basic into the corresponding variant block. -/
def rmw_take_request (a : TakeArgs) (env : TakeEnv) : TakeOut :=
  match a.service with
  | none => ⟨.invalidArgument, a.taken_init, a.header_init, a.request_init, false, false, none⟩
  | some data =>
    if a.request_header_null || a.ros_request_null || a.taken_null then
      ⟨.invalidArgument, a.taken_init, a.header_init, a.request_init, false, false, none⟩
    else
      match data with
      | none => ⟨.error, false, a.header_init, a.request_init, false, false, none⟩
      | some d =>
        if d.request_reader_null then
          ⟨.error, false, a.header_init, a.request_init, false, false, none⟩
        else if d.typesupport_null then
          ⟨.error, false, a.header_init, a.request_init, false, false, none⟩
        else if !env.alloc_data_values_ok then
          ⟨.error, false, a.header_init, a.request_init, false, false, none⟩
        else if !env.alloc_sample_infos_ok then
          ⟨.error, false, a.header_init, a.request_init, false, false, none⟩
        else if !env.alloc_sample_sizes_ok then
          ⟨.error, false, a.header_init, a.request_init, false, false, none⟩
        else if d.service_mapping_basic then
          rmw_take_request_basic a env.raw_take
        else
          rmw_take_request_enhanced a env.raw_take

/-- Arguments of one rmw_send_response call: the service pointer, null flags
for the header and response arguments, and the caller-supplied envelope
(sequence number bit pattern and 16-byte writer GUID) and payload. -/
structure SendArgs where
  service : Option (Option ServiceData)
  request_header_null : Bool
  ros_response_null : Bool
  sequence_number : Nat
  writer_guid : List Nat
  payload : List Nat
  deriving DecidableEq, Repr

/-- Environment of one rmw_send_response call: outcomes of the response buffer
allocation, the serialization and the raw write. -/
structure SendEnv where
  alloc_ok : Bool
  serialize_ok : Bool
  write_ok : Bool
  deriving DecidableEq, Repr

/-- Result of one rmw_send_response call: return code, which value of the
service_mapping_basic flag the wire-variant branch was entered with (if it
was), and the wire sample published on success, per variant. -/
structure SendOut where
  ret : RmwRet
  used_basic : Option Bool
  basic_wire : Option BasicWireSample
  enhanced_wire : Option EnhancedWireSample
  deriving DecidableEq, Repr

/-- Embedding of rmw_send_response: argument null checks, null checks on
service data, writer and typesupport, then the branch on
service_mapping_basic; the basic branch serializes the envelope into the body,
the enhanced branch serializes the body untouched and writes the envelope into
the outgoing extended sample info through the identity codec. -/
def rmw_send_response (a : SendArgs) (env : SendEnv) : SendOut :=
  match a.service with
  | none => ⟨.invalidArgument, none, none, none⟩
  | some data =>
    if a.request_header_null || a.ros_response_null then
      ⟨.invalidArgument, none, none, none⟩
    else
      match data with
      | none => ⟨.error, none, none, none⟩
      | some d =>
        if d.response_writer_null then ⟨.error, none, none, none⟩
        else if d.typesupport_null then ⟨.error, none, none, none⟩
        else if d.service_mapping_basic then
          if !env.alloc_ok then ⟨.error, some true, none, none⟩
          else if !env.serialize_ok then ⟨.error, some true, none, none⟩
          else if !env.write_ok then ⟨.error, some true, none, none⟩
          else
            ⟨.ok, some true,
             some (serialize_response_basic a.payload a.sequence_number a.writer_guid),
             none⟩
        else
          if !env.alloc_ok then ⟨.error, some false, none, none⟩
          else if !env.serialize_ok then ⟨.error, some false, none, none⟩
          else if !env.write_ok then ⟨.error, some false, none, none⟩
          else
            ⟨.ok, some false, none,
             some ⟨ros_guid_to_dds_guid a.writer_guid,
                   (ros_sn_to_dds_sn a.sequence_number).1,
                   (ros_sn_to_dds_sn a.sequence_number).2,
                   serialize_response_enhanced a.payload⟩⟩

/-- The event callback slot of ServiceInfo (event_callback_data): the stored
callback (none models a null function pointer, some c a function pointer with
identity c) and the opaque user data pointer (0 models nullptr). -/
structure EventCallbackData where
  callback : Option Nat
  user_data : Nat
  deriving DecidableEq, Repr

/-- The notification gate state of one endpoint: the callback slot, the
DATA_AVAILABLE bit of the listener status mask installed on the request
reader, and the current unread-sample count as reported by count_unread. -/
structure GateState where
  event_callback_data : EventCallbackData
  mask_data_available : Bool
  unread : Nat
  deriving DecidableEq, Repr

/-- Result of one rmw_service_set_on_new_request_callback call: return code,
the gate state after the call, and the list of synchronous callback
invocations it performed, each recorded as (callback, user_data, count). -/
structure SetCbOut where
  ret : RmwRet
  state : Option GateState
  invocations : List (Nat × Nat × Nat)
  deriving DecidableEq, Repr

/-- Embedding of rmw_service_set_on_new_request_callback.  st models the
service data pointer (none: null).  Under the per-endpoint mutex: with a
callback supplied, it is first invoked once with the current unread count if
that count is positive, then stored together with user_data and the
DATA_AVAILABLE bit is set on the listener mask; with no callback supplied the
slot is cleared and the DATA_AVAILABLE bit is removed from the mask.  The
return code converts the dds_DataReader_set_listener return code. -/
def rmw_service_set_on_new_request_callback (st : Option GateState)
    (callback : Option Nat) (user_data : Nat) (set_listener_ok : Bool) : SetCbOut :=
  match st with
  | none => ⟨.error, none, []⟩
  | some s =>
    match callback with
    | some cb =>
      ⟨if set_listener_ok then .ok else .error,
       some { s with
                event_callback_data := ⟨some cb, user_data⟩,
                mask_data_available := true },
       if 0 < s.unread then [(cb, user_data, s.unread)] else []⟩
    | none =>
      ⟨if set_listener_ok then .ok else .error,
       some { s with
                event_callback_data := ⟨none, 0⟩,
                mask_data_available := false },
       []⟩

/-- Embedding of the on_data_available handler installed at creation: under
the per-endpoint mutex it reads the stored callback and, if one is present,
invokes it with the current unread count; with no stored callback it is a
no-op. -/
def on_data_available (s : GateState) : List (Nat × Nat × Nat) :=
  match s.event_callback_data.callback with
  | some cb => [(cb, s.event_callback_data.user_data, s.unread)]
  | none => []

/-- The fields of ServiceInfo consulted by rmw_destroy_service: nullability of
the stored writer, reader and read condition. -/
structure DestroyData where
  response_writer_null : Bool
  request_reader_null : Bool
  read_condition_null : Bool
  deriving DecidableEq, Repr

/-- The rmw_service_t handle as seen by rmw_destroy_service: the data pointer
(none when already null) and whether the stored service name is null. -/
structure ServiceHandle where
  data : Option DestroyData
  name_null : Bool
  deriving DecidableEq, Repr

/-- Environment of one rmw_destroy_service call: outcomes of the fallible
deletions and of the graph-cache notification. -/
structure DestroyEnv where
  delete_writer_ok : Bool
  delete_read_condition_ok : Bool
  delete_reader_ok : Bool
  graph_delete_ok : Bool
  deriving DecidableEq, Repr

/-- Result of one rmw_destroy_service call on the modelled one-cell heap:
either the call returns a code together with the heap cell afterwards (none
when rmw_service_free released the handle), or the call dereferenced a handle
that was already freed, which is undefined behavior in the source. -/
inductive DestroyResult where
  | returned (ret : RmwRet) (heap : Option ServiceHandle)
  | useAfterFree
  deriving DecidableEq, Repr

/-- Embedding of rmw_destroy_service over a one-cell heap holding the handle
(none models a handle freed by an earlier call).  With non-null data it
deletes the writer, the scratch sequences, the read condition and reader, and
notifies the graph cache, returning RMW_RET_ERROR as soon as one deletion
fails; deletions already performed before a reported error are not rolled
back, and on the error paths the handle is not freed (the heap cell is kept;
the partially torn down data is summarized by the original record).  On
success, and likewise when data is already null, the service name and the
handle itself are freed and RMW_RET_OK is returned. -/
def rmw_destroy_service (heap : Option ServiceHandle) (env : DestroyEnv) :
    DestroyResult :=
  match heap with
  | none => .useAfterFree
  | some svc =>
    match svc.data with
    | some d =>
      if !d.response_writer_null && !env.delete_writer_ok then
        .returned .error (some svc)
      else if !d.request_reader_null && !d.read_condition_null
          && !env.delete_read_condition_ok then
        .returned .error (some svc)
      else if !d.request_reader_null && !env.delete_reader_ok then
        .returned .error (some svc)
      else if !env.graph_delete_ok then
        .returned .error (some svc)
      else
        .returned .ok none
    | none => .returned .ok none

/-- The resources allocated by rmw_create_service, in the sense of claim C1:
everything the fail label or the scratch-allocation early returns could leave
behind.  Topics obtained by find_topic count as allocated like created ones
(both are deleted by the fail label). -/
inductive Resource where
  | requestTypesupport
  | responseTypesupport
  | requestTopic
  | responseTopic
  | requestReader
  | readCondition
  | responseWriter
  | serviceInfoMem
  | dataSeq
  | infoSeq
  | rawDataSizes
  | rmwServiceMem
  | serviceNameMem
  deriving DecidableEq, Repr

/-- Resources still allocated after the fail label runs: the label frees the
service name and handle, the read condition and reader, the writer, both
topics, both typesupports and the ServiceInfo, but never the three scratch
sequences (data_seq, info_seq, raw_data_sizes). -/
def cleanup_fail (live : List Resource) : List Resource :=
  live.filter fun r =>
    r == Resource.dataSeq || r == Resource.infoSeq || r == Resource.rawDataSizes

/-- Environment of one rmw_create_service call (after the argument checks):
outcome of every fallible step, in source order. -/
structure CreateEnv where
  type_name_ok : Bool
  metastring_ok : Bool
  req_ts_create_ok : Bool
  req_ts_register_ok : Bool
  resp_ts_create_ok : Bool
  resp_ts_register_ok : Bool
  req_topic_found : Bool
  req_topic_find_ok : Bool
  req_topic_qos_ok : Bool
  req_topic_create_ok : Bool
  req_topic_qos_fin_ok : Bool
  resp_topic_found : Bool
  resp_topic_find_ok : Bool
  resp_topic_qos_ok : Bool
  resp_topic_create_ok : Bool
  resp_topic_qos_fin_ok : Bool
  reader_qos_ok : Bool
  reader_create_ok : Bool
  reader_qos_fin_ok : Bool
  read_condition_ok : Bool
  writer_qos_ok : Bool
  writer_create_ok : Bool
  writer_qos_fin_ok : Bool
  service_info_alloc_ok : Bool
  data_seq_ok : Bool
  info_seq_ok : Bool
  raw_data_sizes_ok : Bool
  rmw_service_alloc_ok : Bool
  service_name_alloc_ok : Bool
  graph_ok : Bool
  deriving DecidableEq, Repr

/-- One topic acquisition step of rmw_create_service: when the topic
description is already known the topic is found with a bounded wait, otherwise
the default topic QoS is fetched, the topic created and the QoS finalized.  A
topic created inside a failing sub-step is freed by the fail label, so only
the overall success of the step is observable in the returned live set. -/
def topic_step_ok (found find_ok qos_ok create_ok fin_ok : Bool) : Bool :=
  if found then find_ok else qos_ok && create_ok && fin_ok

/-- Result of one rmw_create_service call: whether an endpoint was returned,
and the resources still allocated when the call returns.  On success the
returned live set is what the returned endpoint owns (the two transient
typesupports are released); on failure any non-empty live set is a leak. -/
structure CreateOut where
  created : Bool
  live : List Resource
  deriving DecidableEq, Repr

/-- Embedding of rmw_create_service after the argument checks, tracking the
allocated resources.  Every fallible step up to the ServiceInfo allocation
jumps to the fail label on failure (cleanup_fail); the three scratch sequence
allocations return nullptr directly on failure, freeing nothing; the
remaining steps jump to the fail label again, which does not free the scratch
sequences.  On success the two typesupports are released and the rest is owned
by the returned endpoint. -/
def rmw_create_service (e : CreateEnv) : CreateOut :=
  if !e.type_name_ok then ⟨false, []⟩ else
  if !e.metastring_ok then ⟨false, []⟩ else
  if !e.req_ts_create_ok then ⟨false, cleanup_fail []⟩ else
  let live := [Resource.requestTypesupport]
  if !e.req_ts_register_ok then ⟨false, cleanup_fail live⟩ else
  if !e.resp_ts_create_ok then ⟨false, cleanup_fail live⟩ else
  let live := Resource.responseTypesupport :: live
  if !e.resp_ts_register_ok then ⟨false, cleanup_fail live⟩ else
  if !(topic_step_ok e.req_topic_found e.req_topic_find_ok e.req_topic_qos_ok
        e.req_topic_create_ok e.req_topic_qos_fin_ok) then
    ⟨false, cleanup_fail live⟩ else
  let live := Resource.requestTopic :: live
  if !(topic_step_ok e.resp_topic_found e.resp_topic_find_ok e.resp_topic_qos_ok
        e.resp_topic_create_ok e.resp_topic_qos_fin_ok) then
    ⟨false, cleanup_fail live⟩ else
  let live := Resource.responseTopic :: live
  if !e.reader_qos_ok then ⟨false, cleanup_fail live⟩ else
  if !e.reader_create_ok then ⟨false, cleanup_fail live⟩ else
  let live := Resource.requestReader :: live
  if !e.reader_qos_fin_ok then ⟨false, cleanup_fail live⟩ else
  if !e.read_condition_ok then ⟨false, cleanup_fail live⟩ else
  let live := Resource.readCondition :: live
  if !e.writer_qos_ok then ⟨false, cleanup_fail live⟩ else
  if !e.writer_create_ok then ⟨false, cleanup_fail live⟩ else
  let live := Resource.responseWriter :: live
  if !e.writer_qos_fin_ok then ⟨false, cleanup_fail live⟩ else
  if !e.service_info_alloc_ok then ⟨false, cleanup_fail live⟩ else
  let live := Resource.serviceInfoMem :: live
  if !e.data_seq_ok then ⟨false, live⟩ else
  let live := Resource.dataSeq :: live
  if !e.info_seq_ok then ⟨false, live⟩ else
  let live := Resource.infoSeq :: live
  if !e.raw_data_sizes_ok then ⟨false, live⟩ else
  let live := Resource.rawDataSizes :: live
  if !e.rmw_service_alloc_ok then ⟨false, cleanup_fail live⟩ else
  let live := Resource.rmwServiceMem :: live
  if !e.service_name_alloc_ok then ⟨false, cleanup_fail live⟩ else
  let live := Resource.serviceNameMem :: live
  if !e.graph_ok then ⟨false, cleanup_fail live⟩ else
  ⟨true, live.filter fun r =>
    !(r == Resource.requestTypesupport || r == Resource.responseTypesupport)⟩

/-- A 16-byte zero caller identity. -/
def zero_guid : List Nat := List.replicate 16 0

/-- A request header in its initial (caller-provided) state. -/
def header0 : ServiceInfoHeader := ⟨0, 0, 0, zero_guid⟩

/-- Live service data under the basic wire variant. -/
def svc_basic : ServiceData := ⟨false, false, false, true⟩

/-- Live service data under the enhanced wire variant. -/
def svc_enhanced : ServiceData := ⟨false, false, false, false⟩

/-- Take arguments with a live service, non-null outputs and zeroed caller
locations. -/
def take_args_ok (d : ServiceData) : TakeArgs :=
  ⟨some (some d), false, false, false, false, header0, []⟩

/-- Take arguments with a null service pointer and a caller taken flag that
happens to hold true before the call. -/
def take_args_null_service : TakeArgs := ⟨none, false, false, false, true, header0, []⟩

/-- Take arguments whose service handle has a null data field. -/
def take_args_data_null : TakeArgs := ⟨some none, false, false, false, true, header0, []⟩

/-- Take environment whose raw take reports no buffered sample. -/
def take_env_no_data : TakeEnv := ⟨true, true, true, RawTakeOutcome.noData⟩

/-- A retrieved sample whose validity flag is false (transport lifecycle
sample). -/
def sample_invalid : SampleEnv :=
  ⟨false, false, ⟨0, 0, zero_guid, []⟩, [], true, 0, 0, 0, 0, zero_guid, 0, 0⟩

/-- Take environment that retrieves exactly one invalid sample. -/
def take_env_invalid_sample : TakeEnv := ⟨true, true, true, RawTakeOutcome.sample sample_invalid⟩

/-- A valid retrieved sample carrying the given basic-variant wire bytes. -/
def sample_with_basic_wire (w : BasicWireSample) : SampleEnv :=
  ⟨true, false, w, [], true, 0, 0, 0, 0, zero_guid, 0, 0⟩

/-- Take environment that retrieves exactly one valid basic-variant sample. -/
def take_env_basic_wire (w : BasicWireSample) : TakeEnv :=
  ⟨true, true, true, RawTakeOutcome.sample (sample_with_basic_wire w)⟩

/-- Send arguments with a live service and non-null outputs. -/
def send_args_ok (d : ServiceData) (sn : Nat) (guid payload : List Nat) : SendArgs :=
  ⟨some (some d), false, false, sn, guid, payload⟩

/-- Send environment where allocation, serialization and the write succeed. -/
def send_env_ok : SendEnv := ⟨true, true, true⟩

/-- Destroy environment where every deletion succeeds. -/
def destroy_env_ok : DestroyEnv := ⟨true, true, true, true⟩

/-- A service handle whose backing data is already null. -/
def null_data_handle : ServiceHandle := ⟨none, true⟩

/-- Creation environment where every step succeeds (topics are created, not
found). -/
def create_env_ok : CreateEnv where
  type_name_ok := true
  metastring_ok := true
  req_ts_create_ok := true
  req_ts_register_ok := true
  resp_ts_create_ok := true
  resp_ts_register_ok := true
  req_topic_found := false
  req_topic_find_ok := true
  req_topic_qos_ok := true
  req_topic_create_ok := true
  req_topic_qos_fin_ok := true
  resp_topic_found := false
  resp_topic_find_ok := true
  resp_topic_qos_ok := true
  resp_topic_create_ok := true
  resp_topic_qos_fin_ok := true
  reader_qos_ok := true
  reader_create_ok := true
  reader_qos_fin_ok := true
  read_condition_ok := true
  writer_qos_ok := true
  writer_create_ok := true
  writer_qos_fin_ok := true
  service_info_alloc_ok := true
  data_seq_ok := true
  info_seq_ok := true
  raw_data_sizes_ok := true
  rmw_service_alloc_ok := true
  service_name_alloc_ok := true
  graph_ok := true

/-- The split halves of a 64-bit pattern recombine to the original value
under the recombination rmw_take_request performs on the basic variant. -/
theorem combine_sn_split (n : Nat) (h : n < 2 ^ 64) :
    combine_sn (split_sn_high n) (split_sn_low n) = n := by
  have h64 : n < 4294967296 * 4294967296 := by
    calc n < 2 ^ 64 := h
    _ = 4294967296 * 4294967296 := by norm_num
  unfold combine_sn split_sn_high split_sn_low
  have e : (2 : Nat) ^ 32 = 4294967296 := by norm_num
  rw [e]
  omega

/-- In every branch of the basic-variant take block, the loan is returned
exactly when a raw take was issued (always, in this block). -/
theorem take_basic_loan_eq_called (a : TakeArgs) (rt : RawTakeOutcome) :
    (rmw_take_request_basic a rt).loan_returned
      = (rmw_take_request_basic a rt).raw_take_called := by
  unfold rmw_take_request_basic
  repeat' split
  all_goals rfl

/-- In every branch of the enhanced-variant take block, the loan is returned
exactly when a raw take was issued (always, in this block). -/
theorem take_enhanced_loan_eq_called (a : TakeArgs) (rt : RawTakeOutcome) :
    (rmw_take_request_enhanced a rt).loan_returned
      = (rmw_take_request_enhanced a rt).raw_take_called := by
  unfold rmw_take_request_enhanced
  repeat' split
  all_goals rfl

/-- In every branch of rmw_take_request, the loaned transport buffers are
returned exactly when a raw take was issued. -/
theorem take_loan_eq_called (a : TakeArgs) (env : TakeEnv) :
    (rmw_take_request a env).loan_returned = (rmw_take_request a env).raw_take_called := by
  unfold rmw_take_request
  repeat' split
  all_goals first
    | rfl
    | exact take_basic_loan_eq_called _ _
    | exact take_enhanced_loan_eq_called _ _

/-- The basic-variant take block always records the basic variant. -/
theorem take_basic_used (a : TakeArgs) (rt : RawTakeOutcome) :
    (rmw_take_request_basic a rt).used_basic = some true := by
  unfold rmw_take_request_basic
  repeat' split
  all_goals rfl

/-- The enhanced-variant take block always records the enhanced variant. -/
theorem take_enhanced_used (a : TakeArgs) (rt : RawTakeOutcome) :
    (rmw_take_request_enhanced a rt).used_basic = some false := by
  unfold rmw_take_request_enhanced
  repeat' split
  all_goals rfl

/-- When rmw_take_request enters a wire-variant branch, it is the branch
selected by the service_mapping_basic flag of its context. -/
theorem take_used_basic_none_or (a : TakeArgs) (env : TakeEnv) (d : ServiceData)
    (h : a.service = some (some d)) :
    (rmw_take_request a env).used_basic = none ∨
    (rmw_take_request a env).used_basic = some d.service_mapping_basic := by
  unfold rmw_take_request
  rw [h]
  repeat' split
  all_goals simp_all [take_basic_used, take_enhanced_used]

/-- When rmw_send_response enters a wire-variant branch, it is the branch
selected by the service_mapping_basic flag of its context. -/
theorem send_used_basic_none_or (a : SendArgs) (env : SendEnv) (d : ServiceData)
    (h : a.service = some (some d)) :
    (rmw_send_response a env).used_basic = none ∨
    (rmw_send_response a env).used_basic = some d.service_mapping_basic := by
  unfold rmw_send_response
  rw [h]
  repeat' split
  all_goals simp_all

/-- In every branch of the basic-variant take block, taken is false or the
return is a success. -/
theorem take_basic_taken_false_or_ok (a : TakeArgs) (rt : RawTakeOutcome) :
    (rmw_take_request_basic a rt).taken = false ∨
    (rmw_take_request_basic a rt).ret = RmwRet.ok := by
  unfold rmw_take_request_basic
  repeat' split
  all_goals simp

/-- In every branch of the enhanced-variant take block, taken is false or the
return is a success. -/
theorem take_enhanced_taken_false_or_ok (a : TakeArgs) (rt : RawTakeOutcome) :
    (rmw_take_request_enhanced a rt).taken = false ∨
    (rmw_take_request_enhanced a rt).ret = RmwRet.ok := by
  unfold rmw_take_request_enhanced
  repeat' split
  all_goals simp

/-- Once the argument null checks of rmw_take_request pass, every return
either left the taken flag at the false it was set to, or is a success
return. -/
theorem take_taken_false_or_ok (a : TakeArgs) (env : TakeEnv) (d0 : Option ServiceData)
    (hs : a.service = some d0) (hh : a.request_header_null = false)
    (hr : a.ros_request_null = false) (ht : a.taken_null = false) :
    (rmw_take_request a env).taken = false ∨ (rmw_take_request a env).ret = RmwRet.ok := by
  unfold rmw_take_request
  rw [hs]
  simp only [hh, hr, ht]
  repeat' split
  all_goals first
    | exact take_basic_taken_false_or_ok _ _
    | exact take_enhanced_taken_false_or_ok _ _
    | simp_all

/-- Fields of the result of rmw_take_request on one valid basic-variant
sample: the header sequence number is the combine_sn recombination of the
split halves carried in the sample, the writer GUID is the embedded client
GUID, and the request buffer receives the deserialized body. -/
theorem take_basic_wire_eval (w : BasicWireSample) :
    (rmw_take_request (take_args_ok svc_basic)
        (take_env_basic_wire w)).header.sequence_number
      = combine_sn w.sn_high w.sn_low ∧
    (rmw_take_request (take_args_ok svc_basic)
        (take_env_basic_wire w)).header.writer_guid = w.client_guid ∧
    (rmw_take_request (take_args_ok svc_basic) (take_env_basic_wire w)).request
      = w.body :=
  ⟨rfl, rfl, rfl⟩

/-- C1: evaluation of rmw_create_service at the failing input of claim C1.
When every step succeeds except the allocation of the capacity-1 data_seq
scratch buffer, the call fails but returns with both typesupports, both
topics, the reader, the read condition, the writer and the ServiceInfo still
allocated: the source returns nullptr at this point instead of jumping to the
fail label, so the full rollback claimed by C1 does not happen. -/
theorem create_scratch_alloc_failure_leaks :
    (rmw_create_service { create_env_ok with data_seq_ok := false }).created = false ∧
    Resource.requestReader ∈
      (rmw_create_service { create_env_ok with data_seq_ok := false }).live ∧
    (rmw_create_service { create_env_ok with data_seq_ok := false }).live ≠ [] := by
  decide

/-- C2: evaluation of rmw_take_request at the failing input of claim C2.
A take that retrieves exactly one sample whose validity flag is false returns
success without touching the header or the request buffer, but reports
taken = true (the source falls through to the unconditional *taken = true),
not the taken-equals-false semantics the claim states. -/
theorem take_invalid_sample_reports_taken_true :
    (rmw_take_request (take_args_ok svc_basic) take_env_invalid_sample).ret
      = RmwRet.ok ∧
    (rmw_take_request (take_args_ok svc_basic) take_env_invalid_sample).taken = true ∧
    (rmw_take_request (take_args_ok svc_basic) take_env_invalid_sample).header
      = header0 ∧
    (rmw_take_request (take_args_ok svc_basic) take_env_invalid_sample).request = [] := by
  decide

/-- C3 (counterexample): the first Destroy on a handle with null backing data
returns success but frees the handle itself, so the second Destroy on the
same handle dereferences freed memory (undefined behavior in the source); it
is not a no-op returning success as the claim states. -/
theorem destroy_twice_dereferences_freed_handle :
    rmw_destroy_service (some null_data_handle) destroy_env_ok
      = DestroyResult.returned RmwRet.ok none ∧
    rmw_destroy_service none destroy_env_ok = DestroyResult.useAfterFree := by
  decide

/-- C3 (amended): Destroy on an endpoint whose backing data is already null
performs no teardown and returns success regardless of the environment, but
it still frees the handle, so the call consumes the handle and must not be
repeated on it. -/
theorem destroy_null_data_is_noop (env : DestroyEnv) (b : Bool) :
    rmw_destroy_service (some ⟨none, b⟩) env = DestroyResult.returned RmwRet.ok none :=
  rfl

/-- C4: on an endpoint with zero buffered samples (the raw take reports no
data), rmw_take_request returns the explicit no-data success result,
RMW_RET_OK with taken = false, never an error, and leaves the caller's
request header and request buffer untouched. -/
theorem take_no_data_success_untouched (a : TakeArgs) (env : TakeEnv) (d : ServiceData)
    (hs : a.service = some (some d))
    (hh : a.request_header_null = false) (hr : a.ros_request_null = false)
    (ht : a.taken_null = false)
    (hrd : d.request_reader_null = false) (hts : d.typesupport_null = false)
    (e1 : env.alloc_data_values_ok = true) (e2 : env.alloc_sample_infos_ok = true)
    (e3 : env.alloc_sample_sizes_ok = true)
    (hnd : env.raw_take = RawTakeOutcome.noData) :
    (rmw_take_request a env).ret = RmwRet.ok ∧
    (rmw_take_request a env).taken = false ∧
    (rmw_take_request a env).header = a.header_init ∧
    (rmw_take_request a env).request = a.request_init := by
  unfold rmw_take_request
  rw [hs, hnd]
  cases hb : d.service_mapping_basic <;>
    simp [hh, hr, ht, hrd, hts, e1, e2, e3, hb,
      rmw_take_request_basic, rmw_take_request_enhanced]

/-- C4 witness: the no-data theorem applied at a concrete live endpoint. -/
theorem take_no_data_success_untouched_witness :
    (rmw_take_request (take_args_ok svc_basic) take_env_no_data).ret = RmwRet.ok ∧
    (rmw_take_request (take_args_ok svc_basic) take_env_no_data).taken = false ∧
    (rmw_take_request (take_args_ok svc_basic) take_env_no_data).header = header0 ∧
    (rmw_take_request (take_args_ok svc_basic) take_env_no_data).request = [] :=
  take_no_data_success_untouched (take_args_ok svc_basic) take_env_no_data svc_basic
    rfl rfl rfl rfl rfl rfl rfl rfl rfl rfl

/-- C5: for every 16-byte caller identity C and 64-bit sequence number N,
encoding a request with (C, N) under either wire variant and decoding it
yields back exactly (C, N) with the payload unchanged; rmw_take_request on
the basic variant reproduces N and C in the request header through the
((int64)high << 32) | low recombination; and a response sent with sequence 42
on the basic variant carries the split high = 0, low = 42. -/
theorem envelope_round_trip (C : List Nat) (N : Nat) (p : List Nat)
    (hN : N < 2 ^ 64) :
    decode_request_basic (encode_request_basic C N p) = (C, N, p) ∧
    decode_request_enhanced (encode_request_enhanced C N p) = (C, N, p) ∧
    (rmw_take_request (take_args_ok svc_basic)
        (take_env_basic_wire (encode_request_basic C N p))).header.sequence_number
      = N ∧
    (rmw_take_request (take_args_ok svc_basic)
        (take_env_basic_wire (encode_request_basic C N p))).header.writer_guid = C ∧
    (rmw_take_request (take_args_ok svc_basic)
        (take_env_basic_wire (encode_request_basic C N p))).request = p ∧
    (rmw_send_response (send_args_ok svc_basic 42 C p) send_env_ok).basic_wire
      = some ⟨0, 42, C, p⟩ := by
  have h1 : split_sn_high 42 = 0 := by norm_num [split_sn_high]
  have h2 : split_sn_low 42 = 42 := by norm_num [split_sn_low]
  refine ⟨?_, ?_, ?_, ?_, ?_, ?_⟩
  · simp [decode_request_basic, encode_request_basic, combine_sn_split N hN]
  · simp [decode_request_enhanced, encode_request_enhanced, dds_guid_to_ros_guid,
      ros_guid_to_dds_guid, dds_sn_to_ros_sn, ros_sn_to_dds_sn, combine_sn_split N hN]
  · rw [(take_basic_wire_eval (encode_request_basic C N p)).1]
    simpa [encode_request_basic] using combine_sn_split N hN
  · rw [(take_basic_wire_eval (encode_request_basic C N p)).2.1]
    rfl
  · rw [(take_basic_wire_eval (encode_request_basic C N p)).2.2]
    rfl
  · simp [rmw_send_response, send_args_ok, svc_basic, send_env_ok,
      serialize_response_basic, h1, h2]

/-- C5 witness: the round-trip theorem applied at identity zero, sequence 42
and payload [1, 2, 3]. -/
theorem envelope_round_trip_witness :
    (42 : Nat) < 2 ^ 64 ∧
    decode_request_basic (encode_request_basic zero_guid 42 [1, 2, 3])
      = (zero_guid, 42, [1, 2, 3]) :=
  ⟨by norm_num, (envelope_round_trip zero_guid 42 [1, 2, 3] (by norm_num)).1⟩

/-- C6: rmw_service_set_on_new_request_callback with a non-null callback on
an endpoint holding K > 0 unread samples synchronously invokes the callback
exactly once with count K before returning, then stores the callback and user
data and enables the DATA_AVAILABLE bit of the listener mask. -/
theorem set_callback_flushes_pending (s : GateState) (cb u : Nat) (lok : Bool)
    (h : 0 < s.unread) :
    (rmw_service_set_on_new_request_callback (some s) (some cb) u lok).invocations
      = [(cb, u, s.unread)] ∧
    (rmw_service_set_on_new_request_callback (some s) (some cb) u lok).state
      = some { s with event_callback_data := ⟨some cb, u⟩,
                      mask_data_available := true } := by
  unfold rmw_service_set_on_new_request_callback
  simp [h]

/-- C6 witness: the pending-count theorem applied at a gate with three unread
samples. -/
theorem set_callback_flushes_pending_witness :
    0 < (3 : Nat) ∧
    (rmw_service_set_on_new_request_callback (some ⟨⟨none, 0⟩, false, 3⟩)
        (some 7) 5 true).invocations = [(7, 5, 3)] :=
  ⟨by decide,
   (set_callback_flushes_pending ⟨⟨none, 0⟩, false, 3⟩ 7 5 true (by decide)).1⟩

/-- C7: clearing the callback after a prior registration stores a null
callback and null user data and disables the DATA_AVAILABLE bit of the
listener mask; afterwards a data-arrival delivery (on_data_available at any
later unread count) invokes no callback. -/
theorem clear_callback_disables_delivery (s : GateState) (c u2 n : Nat) (lok : Bool)
    (h : s.event_callback_data.callback = some c) :
    (rmw_service_set_on_new_request_callback (some s) none u2 lok).state
      = some { s with event_callback_data := ⟨none, 0⟩,
                      mask_data_available := false } ∧
    on_data_available
      { s with event_callback_data := ⟨none, 0⟩, mask_data_available := false,
               unread := n } = [] := by
  unfold rmw_service_set_on_new_request_callback on_data_available
  simp

/-- C7 witness: the clearing theorem applied after a registration of callback
7 with user data 5, delivery arriving with four unread samples. -/
theorem clear_callback_disables_delivery_witness :
    (⟨⟨some 7, 5⟩, true, 2⟩ : GateState).event_callback_data.callback = some 7 ∧
    on_data_available ⟨⟨none, 0⟩, false, 4⟩ = [] :=
  ⟨rfl, (clear_callback_disables_delivery ⟨⟨some 7, 5⟩, true, 2⟩ 7 0 4 true rfl).2⟩

/-- C8: every rmw_take_request and every rmw_send_response call on endpoints
of the same service data enter the wire-variant branch selected by the single
service_mapping_basic flag of the owning context, so the basic and enhanced
encodings are never mixed on one endpoint. -/
theorem wire_variant_never_mixed (d : ServiceData) (a : TakeArgs) (ta : TakeEnv)
    (sa : SendArgs) (se : SendEnv) (v1 v2 : Bool)
    (h1 : a.service = some (some d)) (h2 : sa.service = some (some d))
    (ht : (rmw_take_request a ta).used_basic = some v1)
    (hs : (rmw_send_response sa se).used_basic = some v2) :
    v1 = d.service_mapping_basic ∧ v2 = d.service_mapping_basic ∧ v1 = v2 := by
  have e1 := take_used_basic_none_or a ta d h1
  have e2 := send_used_basic_none_or sa se d h2
  rcases e1 with e1 | e1
  · rw [e1] at ht; cases ht
  rcases e2 with e2 | e2
  · rw [e2] at hs; cases hs
  rw [ht] at e1
  rw [hs] at e2
  injection e1 with e1
  injection e2 with e2
  exact ⟨e1, e2, e1.trans e2.symm⟩

/-- C8 witness: at a concrete basic-variant endpoint, a take and a send both
enter the basic branch. -/
theorem wire_variant_never_mixed_witness :
    (rmw_take_request (take_args_ok svc_basic) take_env_no_data).used_basic
      = some true ∧
    (rmw_send_response (send_args_ok svc_basic 42 zero_guid []) send_env_ok).used_basic
      = some true ∧
    (true = svc_basic.service_mapping_basic ∧ true = svc_basic.service_mapping_basic ∧
      (true : Bool) = true) :=
  ⟨by decide, by decide,
   wire_variant_never_mixed svc_basic (take_args_ok svc_basic) take_env_no_data
     (send_args_ok svc_basic 42 zero_guid []) send_env_ok true true rfl rfl
     (by decide) (by decide)⟩

/-- C9: on every exit path of rmw_take_request that follows a raw take
(success, no-data, take error, invalid sample, null sample pointer and
deserialization failure alike), the loaned transport buffers are returned
before the call returns. -/
theorem take_loan_returned_on_every_exit (a : TakeArgs) (env : TakeEnv)
    (h : (rmw_take_request a env).raw_take_called = true) :
    (rmw_take_request a env).loan_returned = true := by
  rw [take_loan_eq_called a env, h]

/-- C9 witness: the loan-return theorem applied at a concrete call that
reaches the raw take. -/
theorem take_loan_returned_on_every_exit_witness :
    (rmw_take_request (take_args_ok svc_basic) take_env_no_data).raw_take_called
      = true ∧
    (rmw_take_request (take_args_ok svc_basic) take_env_no_data).loan_returned = true :=
  ⟨by decide, take_loan_returned_on_every_exit _ _ (by decide)⟩

/-- C10 (counterexample): a call rejected for a null service pointer returns
RMW_RET_INVALID_ARGUMENT without writing the taken flag, so a caller whose
flag held true before the call still observes true, not the false the claim
states for invalid-argument rejections. -/
theorem take_invalid_argument_taken_untouched :
    (rmw_take_request take_args_null_service take_env_no_data).ret
      = RmwRet.invalidArgument ∧
    (rmw_take_request take_args_null_service take_env_no_data).taken = true := by
  decide

/-- C10 (amended): once the argument null checks pass, rmw_take_request sets
taken to false before any fallible operation, so every return other than a
success return leaves the caller observing taken = false (null endpoint data,
allocation failure, transport error, deserialization failure; no-data also
returns success with taken = false); on invalid-argument rejection the flag
is left untouched instead. -/
theorem take_taken_false_on_non_ok (a : TakeArgs) (env : TakeEnv)
    (d0 : Option ServiceData)
    (hs : a.service = some d0) (hh : a.request_header_null = false)
    (hr : a.ros_request_null = false) (ht : a.taken_null = false)
    (hret : (rmw_take_request a env).ret ≠ RmwRet.ok) :
    (rmw_take_request a env).taken = false := by
  rcases take_taken_false_or_ok a env d0 hs hh hr ht with h | h
  · exact h
  · exact absurd h hret

/-- C10 witness: the amended theorem applied at an endpoint whose data field
is null (an error return). -/
theorem take_taken_false_on_non_ok_witness :
    (rmw_take_request take_args_data_null take_env_no_data).ret ≠ RmwRet.ok ∧
    (rmw_take_request take_args_data_null take_env_no_data).taken = false :=
  ⟨by decide,
   take_taken_false_on_non_ok take_args_data_null take_env_no_data none
     rfl rfl rfl rfl (by decide)⟩
